import Mathlib

/-!
Verification development for the lenstronomy numerical image-synthesis
engine (`lenstronomy/ImSim/Numerics/numerics.py`).  The `Numerics`
orchestrator from the source is embedded shallowly: its constructor
becomes `mkNumerics` returning `Except`, and the two operations
`re_size_convolve` and `coordinates_evaluate` become pure functions.
The grid and convolution helper classes (`grid.py`, `convolution.py`,
`util.fwhm2sigma`) are not part of the source tree available here; the
pieces of their behaviour that the properties depend on are modelled
from the specification and marked as such in their doc comments.
Convolution strategies are represented by a descriptor carrying exactly
the constructor arguments the orchestrator passes; the numerical action
of a strategy is kept abstract (theorems quantify over it).
-/

namespace Lenstronomy

/-- A 2d image: a list of `nx` rows, each with `ny` rational entries. -/
abbrev Image := List (List ℚ)

/-- A 2d boolean mask over the pixel grid. -/
abbrev Mask := List (List Bool)

/-- Shape check for a mask against pixel-grid dimensions `(nx, ny)`. -/
def maskShapeOk (nx ny : ℕ) (m : Mask) : Bool :=
  m.length == nx && m.all (fun row => row.length == ny)

/-- An all-`false` mask of shape `(nx, ny)`, mirroring
`np.zeros((nx, ny), dtype=bool)` in the constructor. -/
def zerosMask (nx ny : ℕ) : Mask :=
  List.replicate nx (List.replicate ny false)

/-- Mask lookup with the convention that an absent mask (`None` in the
source) means every pixel is selected. -/
def maskGet (m : Option Mask) (i j : ℕ) : Bool :=
  match m with
  | none => true
  | some mm => (mm.getD i []).getD j false

/-- The external pixel-grid descriptor consumed by the engine: pixel
counts `num_pixel_axes = (nx, ny)`, `pixel_width`, the affine
`transform_pix2angle` (a 2×2 matrix of rationals) and the sky origin
`radec_at_xy_0`. -/
structure PixelGrid where
  nx : ℕ
  ny : ℕ
  pixel_width : ℚ
  transform_pix2angle : (ℚ × ℚ) × (ℚ × ℚ)
  ra_at_xy_0 : ℚ
  dec_at_xy_0 : ℚ

/-- The external PSF descriptor: a `psf_type` tag (a string, as in the
source), the full-width-half-max for the `GAUSSIAN` kind, the native
pixel kernel, and the supersampled kernel accessor
`kernel_point_source_supersampled` for the `PIXEL` kind. -/
structure PSF where
  psf_type : String
  fwhm : ℚ
  kernel_point_source : Image
  kernel_point_source_supersampled : ℕ → Image

/-- Error taxonomy of the engine: configuration errors raised at
construction and shape mismatches raised per render call. -/
inductive NumericsError where
  | invalidConfiguration (msg : String) : NumericsError
  | shapeMismatch : NumericsError
  deriving Repr, DecidableEq

/-- Affine map from a sub-pixel sample index `(i, j)` at supersampling
factor `s` to a sky coordinate.  Modelled from the spec: the grid
classes in `grid.py` are not in the source tree; the spec only fixes
that coordinates come from the pixel→angle affine transform, one sample
per sub-pixel. -/
def pix2angle (t : (ℚ × ℚ) × (ℚ × ℚ)) (ra0 dec0 : ℚ) (s : ℕ) (i j : ℕ) : ℚ × ℚ :=
  let x : ℚ := (i : ℚ) / (s : ℚ)
  let y : ℚ := (j : ℚ) / (s : ℚ)
  (ra0 + t.1.1 * x + t.1.2 * y, dec0 + t.2.1 * x + t.2.2 * y)

/-- The Regular grid variant: uniform supersampling everywhere, with an
optional `flux_evaluate` mask zeroing excluded pixels post-hoc.
Modelled from the spec: `RegularGrid` of `grid.py` is not in the source
tree. -/
structure RegularGrid where
  nx : ℕ
  ny : ℕ
  transform_pix2angle : (ℚ × ℚ) × (ℚ × ℚ)
  ra_at_xy_0 : ℚ
  dec_at_xy_0 : ℚ
  supersampling_factor : ℕ
  flux_evaluate : Option Mask

/-- Ordered coordinate sequence of a Regular grid: one coordinate per
sub-pixel sample, row-major over the `(nx·s) × (ny·s)` sub-pixel grid.
Modelled from the spec: "Supersampling factor `s` means each pixel
contributes `s×s` sub-coordinates". -/
def RegularGrid.coordinates_evaluate (g : RegularGrid) : List (ℚ × ℚ) :=
  (List.range (g.nx * g.supersampling_factor)).flatMap (fun i =>
    (List.range (g.ny * g.supersampling_factor)).map (fun j =>
      pix2angle g.transform_pix2angle g.ra_at_xy_0 g.dec_at_xy_0 g.supersampling_factor i j))

/-- Low-resolution reassembly on a Regular grid: each native pixel is
the average of its `s×s` sub-samples, and pixels excluded by the
`flux_evaluate` mask are zeroed post-hoc.  Modelled from the spec:
"reassembly averages/accumulates sub-samples into the low-res cell with
correct area weighting" and "`flux_evaluate` mask simply zeroes
excluded pixels post-hoc". -/
def RegularGrid.lowRes (g : RegularGrid) (flux : List ℚ) : Image :=
  let s := g.supersampling_factor
  (List.range g.nx).map (fun i =>
    (List.range g.ny).map (fun j =>
      if maskGet g.flux_evaluate i j then
        (((List.range s).flatMap (fun di =>
          (List.range s).map (fun dj =>
            flux.getD ((i * s + di) * (g.ny * s) + (j * s + dj)) 0))).sum) / ((s : ℚ) ^ 2)
      else 0))

/-- High-resolution image on a Regular grid: the flux array reshaped to
the `(nx·s) × (ny·s)` sub-pixel grid; degenerate (`none`) when the
supersampling factor is 1, per the spec edge case. -/
def RegularGrid.highRes (g : RegularGrid) (flux : List ℚ) : Option Image :=
  let s := g.supersampling_factor
  if s ≤ 1 then none
  else some ((List.range (g.nx * s)).map (fun r =>
    (List.range (g.ny * s)).map (fun c => flux.getD (r * (g.ny * s) + c) 0)))

/-- The Adaptive grid variant: per-pixel supersampling selected by the
`supersampled` mask, with an optional `flux_evaluate` mask.  Modelled
from the spec: `AdaptiveGrid` of `grid.py` is not in the source tree. -/
structure AdaptiveGrid where
  nx : ℕ
  ny : ℕ
  transform_pix2angle : (ℚ × ℚ) × (ℚ × ℚ)
  ra_at_xy_0 : ℚ
  dec_at_xy_0 : ℚ
  supersampled : Mask
  supersampling_factor : ℕ
  flux_evaluate : Option Mask

/-- Row-major list of pixel index pairs of an `nx × ny` grid. -/
def pixelPairs (nx ny : ℕ) : List (ℕ × ℕ) :=
  (List.range nx).flatMap (fun i => (List.range ny).map (fun j => (i, j)))

/-- Pixels of an Adaptive grid that are evaluated at native resolution:
flagged by `flux_evaluate` and not supersampled.  Modelled from the
spec: "all other flagged-evaluate pixels use one coordinate each". -/
def AdaptiveGrid.lowPixels (g : AdaptiveGrid) : List (ℕ × ℕ) :=
  (pixelPairs g.nx g.ny).filter (fun p =>
    maskGet g.flux_evaluate p.1 p.2 && !(maskGet (some g.supersampled) p.1 p.2))

/-- Pixels of an Adaptive grid that are supersampled. -/
def AdaptiveGrid.superPixels (g : AdaptiveGrid) : List (ℕ × ℕ) :=
  (pixelPairs g.nx g.ny).filter (fun p => maskGet (some g.supersampled) p.1 p.2)

/-- Ordered coordinate sequence of an Adaptive grid: the low-resolution
coordinates (masked by `flux_evaluate`) followed by the `s×s`
sub-coordinates of each supersampled pixel.  Modelled from the spec:
"the coordinate sequence is the concatenation of low-res coordinates
(masked by `flux_evaluate`) and high-res sub-coordinates (masked by
`supersampled`), in a fixed, documented order". -/
def AdaptiveGrid.coordinates_evaluate (g : AdaptiveGrid) : List (ℚ × ℚ) :=
  let s := g.supersampling_factor
  g.lowPixels.map (fun p =>
    pix2angle g.transform_pix2angle g.ra_at_xy_0 g.dec_at_xy_0 1 p.1 p.2)
  ++ g.superPixels.flatMap (fun p =>
    (List.range s).flatMap (fun di =>
      (List.range s).map (fun dj =>
        pix2angle g.transform_pix2angle g.ra_at_xy_0 g.dec_at_xy_0 s
          (p.1 * s + di) (p.2 * s + dj))))

/-- Position of pixel `(i, j)` within the low-resolution part of the
Adaptive coordinate order. -/
def AdaptiveGrid.lowRank (g : AdaptiveGrid) (i j : ℕ) : ℕ :=
  (g.lowPixels.takeWhile (fun p => p ≠ (i, j))).length

/-- Position of pixel `(i, j)` within the supersampled part of the
Adaptive coordinate order. -/
def AdaptiveGrid.superRank (g : AdaptiveGrid) (i j : ℕ) : ℕ :=
  (g.superPixels.takeWhile (fun p => p ≠ (i, j))).length

/-- Low-resolution reassembly on an Adaptive grid: a supersampled pixel
receives the average of its `s×s` sub-samples, a flagged native pixel
receives its single sample, and all other pixels are zero.  Modelled
from the spec: "Reassembly must route each flux sample back to its
originating pixel/sub-pixel using the same order". -/
def AdaptiveGrid.lowRes (g : AdaptiveGrid) (flux : List ℚ) : Image :=
  let s := g.supersampling_factor
  let nLow := g.lowPixels.length
  (List.range g.nx).map (fun i =>
    (List.range g.ny).map (fun j =>
      if maskGet (some g.supersampled) i j then
        (((List.range (s * s)).map (fun k =>
          flux.getD (nLow + g.superRank i j * (s * s) + k) 0)).sum) / ((s : ℚ) ^ 2)
      else if maskGet g.flux_evaluate i j then
        flux.getD (g.lowRank i j) 0
      else 0))

/-- High-resolution partial image on an Adaptive grid: one row of `s×s`
sub-samples per supersampled pixel, in coordinate order.  Modelled from
the spec, which restricts the high-res partial image to the
supersampled regions. -/
def AdaptiveGrid.highRes (g : AdaptiveGrid) (flux : List ℚ) : Option Image :=
  let s := g.supersampling_factor
  let nLow := g.lowPixels.length
  if s ≤ 1 then none
  else some ((List.range g.superPixels.length).map (fun r =>
    (List.range (s * s)).map (fun k => flux.getD (nLow + r * (s * s) + k) 0)))

/-- The grid owned by the orchestrator: Regular or Adaptive. -/
inductive GridModel where
  | regular (g : RegularGrid) : GridModel
  | adaptive (g : AdaptiveGrid) : GridModel

/-- Coordinate sequence of either grid variant. -/
def GridModel.coordinates_evaluate : GridModel → List (ℚ × ℚ)
  | .regular g => g.coordinates_evaluate
  | .adaptive g => g.coordinates_evaluate

/-- Low-resolution reassembly of either grid variant. -/
def GridModel.lowRes : GridModel → List ℚ → Image
  | .regular g, flux => g.lowRes flux
  | .adaptive g, flux => g.lowRes flux

/-- High-resolution partial image of either grid variant. -/
def GridModel.highRes : GridModel → List ℚ → Option Image
  | .regular g, flux => g.highRes flux
  | .adaptive g, flux => g.highRes flux

/-- Reassembly of a flux array into the (low-res, high-res partial)
image pair.  Fails with `ShapeMismatch` exactly when the flux array
length differs from the coordinate-sequence length, per the spec
contract of `flux_array2image_low_high`. -/
def GridModel.flux_array2image_low_high (g : GridModel) (flux : List ℚ) :
    Except NumericsError (Image × Option Image) :=
  if flux.length = g.coordinates_evaluate.length then
    .ok (g.lowRes flux, g.highRes flux)
  else .error .shapeMismatch

/-- Conversion of a Gaussian full-width-half-max to a standard
deviation.  Modelled from the spec: `util.fwhm2sigma` is not in the
source tree; the spec fixes `sigma = FWHM / (2·sqrt(2·ln 2))`. -/
noncomputable def fwhm2sigma (fwhm : ℚ) : ℝ :=
  (fwhm : ℝ) / (2 * Real.sqrt (2 * Real.log 2))

/-- Descriptor of the convolution strategy wired at construction,
carrying exactly the constructor arguments the orchestrator passes to
the corresponding class in `convolution.py` / `adaptive_numerics.py`
(the numerical action of each strategy lives in those files, which are
not in the source tree; it is kept abstract). -/
inductive ConvStrategy where
  | adaptiveConv (kernel_super : Image) (supersampling_factor : ℕ)
      (conv_supersample_pixels : Mask) (supersampling_kernel_size : ℕ)
      (compute_pixels : Option Mask) : ConvStrategy
  | subgridKernel (kernel_super : Image) (supersampling_factor : ℕ)
      (supersampling_kernel_size : ℕ) (convolution_type : String) : ConvStrategy
  | pixelKernel (kernel : Image) (convolution_type : String) : ConvStrategy
  | multiGaussian (sigma_list : List ℝ) (fraction_list : List ℚ)
      (pixel_scale : ℚ) (supersampling_factor : ℕ)
      (supersampling_convolution : Bool) (truncation : ℕ) : ConvStrategy

/-- The constructed `Numerics` engine: the configuration state wired by
the constructor and read (never written) by the two operations. -/
structure Numerics where
  psf_type : String
  pixel_width : ℚ
  grid : GridModel
  conv : Option ConvStrategy
  point_source_supersampling_factor : ℕ

/-- Shape check for an optional mask: an absent mask is always valid, a
provided mask must be sized exactly `(nx, ny)`. -/
def maskOptOk (nx ny : ℕ) (m : Option Mask) : Bool :=
  match m with
  | none => true
  | some mm => maskShapeOk nx ny mm

/-- Validation of the three evaluation masks against the pixel-grid
dimensions.  Modelled from the spec: the mask-consuming constructors in
`grid.py` / `adaptive_numerics.py` are not in the source tree; the spec
requires "masks are sized exactly (nx, ny)" to be "validated together
at construction", raising `InvalidConfiguration` otherwise. -/
def validateMasks (nx ny : ℕ) (flux_evaluate_indexes supersampled_indexes compute_indexes : Option Mask) :
    Except NumericsError Unit :=
  if maskOptOk nx ny flux_evaluate_indexes then
    if maskOptOk nx ny supersampled_indexes then
      if maskOptOk nx ny compute_indexes then .ok ()
      else .error (.invalidConfiguration "compute_indexes shape does not match pixel grid")
    else .error (.invalidConfiguration "supersampled_indexes shape does not match pixel grid")
  else .error (.invalidConfiguration "flux_evaluate_indexes shape does not match pixel grid")

/-- Construction-time normalization of the supersampling-convolution
flag, from the source: "if no super sampling, turn the supersampling
convolution off". -/
def normalizeSSConv (supersampling_factor : ℕ) (supersampling_convolution : Bool) : Bool :=
  if supersampling_factor = 1 then false else supersampling_convolution

/-- Grid selection from `compute_mode`, from the source: an Adaptive
grid for the exact string `'adaptive'` and a Regular grid for every
other value (the argument is not validated). -/
def buildGrid (pixel_grid : PixelGrid) (compute_mode : String)
    (ssIdx : Mask) (supersampling_factor : ℕ)
    (flux_evaluate_indexes : Option Mask) : GridModel :=
  if compute_mode = "adaptive" then
    .adaptive ⟨pixel_grid.nx, pixel_grid.ny, pixel_grid.transform_pix2angle,
      pixel_grid.ra_at_xy_0, pixel_grid.dec_at_xy_0, ssIdx, supersampling_factor,
      flux_evaluate_indexes⟩
  else
    .regular ⟨pixel_grid.nx, pixel_grid.ny, pixel_grid.transform_pix2angle,
      pixel_grid.ra_at_xy_0, pixel_grid.dec_at_xy_0, supersampling_factor,
      flux_evaluate_indexes⟩

/-- Convolution-strategy selection, translated from the PSF-kind
dispatch of the constructor: `PIXEL` with supersampled convolution
selects the adaptive or subgrid variant according to `compute_mode`,
plain `PIXEL` selects the direct FFT pixel-kernel variant, `GAUSSIAN`
selects a single-component multi-Gaussian with
`sigma = fwhm2sigma fwhm` and truncation 4, `NONE` wires no strategy,
and any other kind is rejected. -/
noncomputable def selectConv (psf : PSF) (compute_mode : String) (ssConv : Bool)
    (supersampling_factor supersampling_kernel_size : ℕ) (ssIdx : Mask)
    (compute_indexes : Option Mask) (pixel_scale : ℚ) :
    Except NumericsError (Option ConvStrategy) :=
  if psf.psf_type = "PIXEL" then
    if compute_mode = "adaptive" ∧ ssConv = true then
      .ok (some (.adaptiveConv (psf.kernel_point_source_supersampled supersampling_factor)
        supersampling_factor ssIdx supersampling_kernel_size compute_indexes))
    else if compute_mode = "regular" ∧ ssConv = true then
      .ok (some (.subgridKernel (psf.kernel_point_source_supersampled supersampling_factor)
        supersampling_factor supersampling_kernel_size "fft"))
    else
      .ok (some (.pixelKernel psf.kernel_point_source "fft"))
  else if psf.psf_type = "GAUSSIAN" then
    .ok (some (.multiGaussian [fwhm2sigma psf.fwhm] [1] pixel_scale
      supersampling_factor ssConv 4))
  else if psf.psf_type = "NONE" then
    .ok none
  else
    .error (.invalidConfiguration "psf_type not valid! Chose either NONE, GAUSSIAN or PIXEL.")

/-- The `Numerics.__init__` constructor, translated from `numerics.py`:
normalize `supersampling_convolution` off when the supersampling factor
is 1, default `supersampled_indexes` to an all-false grid, build the
grid from `compute_mode`, then select the convolution strategy from the
PSF kind and flags, rejecting any `psf_type` other than `NONE`,
`GAUSSIAN`, `PIXEL`.  Mask validation is modelled from the spec (see
`validateMasks`); grid construction is total, so hoisting the PSF-kind
dispatch into `selectConv` preserves the observable behaviour of the
source's statement order. -/
noncomputable def mkNumerics (pixel_grid : PixelGrid) (psf : PSF)
    (supersampling_factor : ℕ) (compute_mode : String)
    (supersampling_convolution : Bool) (supersampling_kernel_size : ℕ)
    (flux_evaluate_indexes supersampled_indexes compute_indexes : Option Mask)
    (point_source_supersampling_factor : ℕ) :
    Except NumericsError Numerics :=
  let ssConv := normalizeSSConv supersampling_factor supersampling_convolution
  let ssIdx := supersampled_indexes.getD (zerosMask pixel_grid.nx pixel_grid.ny)
  match validateMasks pixel_grid.nx pixel_grid.ny flux_evaluate_indexes
      supersampled_indexes compute_indexes with
  | .error e => .error e
  | .ok _ =>
    match selectConv psf compute_mode ssConv supersampling_factor
        supersampling_kernel_size ssIdx compute_indexes pixel_grid.pixel_width with
    | .error e => .error e
    | .ok conv =>
      .ok ⟨psf.psf_type, pixel_grid.pixel_width,
        buildGrid pixel_grid compute_mode ssIdx supersampling_factor flux_evaluate_indexes,
        conv, point_source_supersampling_factor⟩

/-- Elementwise scaling of an image, mirroring
`image_conv * self._pixel_width ** 2` on a numpy array. -/
def scaleImage (w : ℚ) (img : Image) : Image :=
  img.map (fun row => row.map (fun v => v * w))

/-- The `re_size_convolve` method of `numerics.py`, with the numerical
action of the wired convolution strategy abstracted as `convApply`:
reassemble the flux array into the low/high partial images, take the
low-res image unchanged when `unconvolved` is requested or the PSF kind
is `NONE`, otherwise apply the strategy, and scale by
`pixel_width ** 2`.  (On a constructed engine the `NONE` kind is the
only one with no strategy wired, so the fallback arm of the inner match
is unreachable there.) -/
def re_size_convolve (convApply : ConvStrategy → Image → Option Image → Image)
    (eng : Numerics) (flux : List ℚ) (unconvolved : Bool) :
    Except NumericsError Image :=
  match eng.grid.flux_array2image_low_high flux with
  | .error e => .error e
  | .ok (low, high) =>
    let image_conv :=
      if unconvolved = true ∨ eng.psf_type = "NONE" then low
      else
        match eng.conv with
        | some c => convApply c low high
        | none => low
    .ok (scaleImage (eng.pixel_width ^ 2) image_conv)

/-- The `coordinates_evaluate` property of `numerics.py`: delegates to
the grid. -/
def Numerics.coordinates_evaluate (eng : Numerics) : List (ℚ × ℚ) :=
  eng.grid.coordinates_evaluate

/-- State-passing embedding of `re_size_convolve`: Python methods act
on `self`, so the translation returns the post-call engine alongside
the result.  The method body of the source reads `self._grid`,
`self._psf_type`, `self._conv` and `self._pixel_width` and contains no
assignment to `self`, so the post-call engine is the input engine. -/
def re_size_convolveS (convApply : ConvStrategy → Image → Option Image → Image)
    (eng : Numerics) (flux : List ℚ) (unconvolved : Bool) :
    Except NumericsError (Image × Numerics) :=
  match eng.grid.flux_array2image_low_high flux with
  | .error e => .error e
  | .ok (low, high) =>
    let image_conv :=
      if unconvolved = true ∨ eng.psf_type = "NONE" then low
      else
        match eng.conv with
        | some c => convApply c low high
        | none => low
    .ok (scaleImage (eng.pixel_width ^ 2) image_conv, eng)

/-! Concrete fixtures used to instantiate the theorems below: the
10×10 grid with pixel width 0.1 from the spec's test scenario, PSF
descriptors of each kind, and the engines the constructor wires for
them. -/

/-- The 10×10 pixel grid with pixel width 0.1 of the spec scenario. -/
def pg10 : PixelGrid :=
  ⟨10, 10, 1/10, ((1, 0), (0, 1)), 0, 0⟩

/-- A PSF descriptor of kind `NONE`. -/
def psfNone : PSF :=
  ⟨"NONE", 0, [], fun _ => []⟩

/-- A PSF descriptor of kind `GAUSSIAN` with FWHM 2. -/
def psfGauss : PSF :=
  ⟨"GAUSSIAN", 2, [], fun _ => []⟩

/-- A PSF descriptor with an unrecognized kind tag. -/
def psfBad : PSF :=
  ⟨"MOFFAT", 0, [], fun _ => []⟩

/-- The Regular grid the constructor wires for `pg10` at supersampling
factor 1 with no masks. -/
def rg10 : RegularGrid :=
  ⟨10, 10, ((1, 0), (0, 1)), 0, 0, 1, none⟩

/-- The engine built from `pg10` and `psfNone` at supersampling factor
1 in regular mode. -/
def engNone : Numerics :=
  ⟨"NONE", 1/10, .regular rg10, none, 1⟩

/-- The engine built from `pg10` and `psfGauss` at supersampling factor
1 in regular mode. -/
noncomputable def engGauss : Numerics :=
  ⟨"GAUSSIAN", 1/10, .regular rg10, some (.multiGaussian [fwhm2sigma 2] [1] (1/10) 1 false 4), 1⟩

/-- A sample interpretation of the abstract convolution action. -/
def idConvApply : ConvStrategy → Image → Option Image → Image :=
  fun _ low _ => low

/-! Helper lemmas. -/

lemma validateMasks_error_shape (nx ny : ℕ) (fe si ci : Option Mask) (e : NumericsError)
    (h : validateMasks nx ny fe si ci = .error e) :
    ∃ msg, e = .invalidConfiguration msg := by
  unfold validateMasks at h
  split_ifs at h
  all_goals first
    | (injection h; done)
    | (injection h with h2; exact ⟨_, h2.symm⟩)

lemma validateMasks_fails (nx ny : ℕ) (fe si ci : Option Mask)
    (h : maskOptOk nx ny fe = false ∨ maskOptOk nx ny si = false ∨ maskOptOk nx ny ci = false) :
    ∃ msg, validateMasks nx ny fe si ci = .error (.invalidConfiguration msg) := by
  unfold validateMasks
  by_cases h1 : maskOptOk nx ny fe = true
  · rw [if_pos h1]
    by_cases h2 : maskOptOk nx ny si = true
    · rw [if_pos h2]
      by_cases h3 : maskOptOk nx ny ci = true
      · exfalso
        rcases h with h | h | h <;> simp_all
      · rw [if_neg h3]
        exact ⟨_, rfl⟩
    · rw [if_neg h2]
      exact ⟨_, rfl⟩
  · rw [if_neg h1]
    exact ⟨_, rfl⟩

lemma mkNumerics_ok_elim (pg : PixelGrid) (psf : PSF) (s : ℕ) (cm : String) (sc : Bool)
    (ks : ℕ) (fe si ci : Option Mask) (ps : ℕ) (eng : Numerics)
    (h : mkNumerics pg psf s cm sc ks fe si ci ps = .ok eng) :
    validateMasks pg.nx pg.ny fe si ci = .ok () ∧
    ∃ conv, selectConv psf cm (normalizeSSConv s sc) s ks (si.getD (zerosMask pg.nx pg.ny)) ci
        pg.pixel_width = .ok conv ∧
      eng = ⟨psf.psf_type, pg.pixel_width,
        buildGrid pg cm (si.getD (zerosMask pg.nx pg.ny)) s fe, conv, ps⟩ := by
  unfold mkNumerics at h
  dsimp only at h
  cases hv : validateMasks pg.nx pg.ny fe si ci with
  | error e =>
    rw [hv] at h
    simp at h
  | ok u =>
    rw [hv] at h
    dsimp only at h
    cases hs : selectConv psf cm (normalizeSSConv s sc) s ks (si.getD (zerosMask pg.nx pg.ny)) ci
        pg.pixel_width with
    | error e =>
      rw [hs] at h
      simp at h
    | ok conv =>
      rw [hs] at h
      dsimp only at h
      cases u
      exact ⟨rfl, conv, rfl, (Except.ok.inj h).symm⟩

/-! Claim theorems. -/

/-- C1: for every constructed `Numerics` engine and every flux array of
the correct length, `re_size_convolve` with `unconvolved = true`
returns exactly the low-resolution image reassembled by the grid from
the flux array, multiplied by `pixel_width ^ 2`, regardless of the PSF
kind configured. -/
theorem re_size_convolve_unconvolved_identity
    (convApply : ConvStrategy → Image → Option Image → Image)
    (pg : PixelGrid) (psf : PSF) (s : ℕ) (cm : String) (sc : Bool) (ks : ℕ)
    (fe si ci : Option Mask) (ps : ℕ) (eng : Numerics)
    (h : mkNumerics pg psf s cm sc ks fe si ci ps = .ok eng)
    (flux : List ℚ) (hlen : flux.length = eng.coordinates_evaluate.length) :
    re_size_convolve convApply eng flux true
      = .ok (scaleImage (eng.pixel_width ^ 2) (eng.grid.lowRes flux)) := by
  have hlen2 : flux.length = eng.grid.coordinates_evaluate.length := hlen
  unfold re_size_convolve GridModel.flux_array2image_low_high
  rw [if_pos hlen2]
  simp

/-- C2: if the constructor is called with supersampling factor 1, the
supersampling-convolution flag is normalized to `false` before the grid
and convolution objects are built, so construction is insensitive to
the caller's value of that flag. -/
theorem supersampling_factor_one_forces_ssconv_off
    (pg : PixelGrid) (psf : PSF) (cm : String) (sc : Bool) (ks : ℕ)
    (fe si ci : Option Mask) (ps : ℕ) :
    mkNumerics pg psf 1 cm sc ks fe si ci ps
      = mkNumerics pg psf 1 cm false ks fe si ci ps := by
  unfold mkNumerics normalizeSSConv
  simp

/-- C3: on an engine constructed with a PSF of kind `NONE`, the
`unconvolved` flag has no effect on `re_size_convolve`, for every flux
array and every interpretation of the convolution strategies. -/
theorem psf_none_unconvolved_flag_irrelevant
    (convApply : ConvStrategy → Image → Option Image → Image)
    (pg : PixelGrid) (psf : PSF) (s : ℕ) (cm : String) (sc : Bool) (ks : ℕ)
    (fe si ci : Option Mask) (ps : ℕ) (eng : Numerics)
    (h : mkNumerics pg psf s cm sc ks fe si ci ps = .ok eng)
    (hpsf : psf.psf_type = "NONE") (flux : List ℚ) :
    re_size_convolve convApply eng flux true
      = re_size_convolve convApply eng flux false := by
  have hp : eng.psf_type = "NONE" := by
    obtain ⟨-, conv, -, rfl⟩ := mkNumerics_ok_elim _ _ _ _ _ _ _ _ _ _ _ h
    exact hpsf
  unfold re_size_convolve
  cases hg : eng.grid.flux_array2image_low_high flux with
  | error e => rfl
  | ok p =>
    obtain ⟨low, high⟩ := p
    simp [hp]

/-- C4: constructing an engine from a PSF descriptor whose kind tag is
none of `NONE`, `GAUSSIAN`, `PIXEL` fails with an
`InvalidConfiguration` error; no engine object is produced. -/
theorem unrecognized_psf_type_rejected
    (pg : PixelGrid) (psf : PSF) (s : ℕ) (cm : String) (sc : Bool) (ks : ℕ)
    (fe si ci : Option Mask) (ps : ℕ)
    (h1 : psf.psf_type ≠ "NONE") (h2 : psf.psf_type ≠ "GAUSSIAN")
    (h3 : psf.psf_type ≠ "PIXEL") :
    ∃ msg, mkNumerics pg psf s cm sc ks fe si ci ps
      = .error (.invalidConfiguration msg) := by
  unfold mkNumerics
  cases hv : validateMasks pg.nx pg.ny fe si ci with
  | error e =>
    obtain ⟨msg, rfl⟩ := validateMasks_error_shape _ _ _ _ _ _ hv
    exact ⟨msg, rfl⟩
  | ok u =>
    cases u
    unfold selectConv
    dsimp only
    rw [if_neg h3, if_neg h2, if_neg h1]
    exact ⟨_, rfl⟩

/-- C5: constructing an engine with an evaluation mask (flux-evaluate,
supersampled, or compute) whose shape does not match the pixel-grid
dimensions fails with an `InvalidConfiguration` error. -/
theorem mask_shape_mismatch_rejected
    (pg : PixelGrid) (psf : PSF) (s : ℕ) (cm : String) (sc : Bool) (ks : ℕ)
    (fe si ci : Option Mask) (ps : ℕ)
    (h : maskOptOk pg.nx pg.ny fe = false ∨ maskOptOk pg.nx pg.ny si = false
      ∨ maskOptOk pg.nx pg.ny ci = false) :
    ∃ msg, mkNumerics pg psf s cm sc ks fe si ci ps
      = .error (.invalidConfiguration msg) := by
  obtain ⟨msg, hm⟩ := validateMasks_fails pg.nx pg.ny fe si ci h
  refine ⟨msg, ?_⟩
  unfold mkNumerics
  rw [hm]

/-- C6: the convolution strategy is fixed at construction from the PSF
kind and the configuration flags and is never changed by a render
call: `PIXEL` with supersampled convolution selects the adaptive
variant in adaptive mode and the subgrid variant in regular mode,
`PIXEL` without supersampled convolution selects direct FFT
pixel-kernel convolution, and `GAUSSIAN` selects a single-component
multi-Gaussian with `sigma = FWHM / (2·sqrt(2·ln 2))` and truncation
radius 4 sigma. -/
theorem conv_strategy_fixed_at_construction
    (pg : PixelGrid) (psf : PSF) (s : ℕ) (cm : String) (sc : Bool) (ks : ℕ)
    (fe si ci : Option Mask) (ps : ℕ) (eng : Numerics)
    (h : mkNumerics pg psf s cm sc ks fe si ci ps = .ok eng) :
    (psf.psf_type = "PIXEL" → cm = "adaptive" → normalizeSSConv s sc = true →
      eng.conv = some (.adaptiveConv (psf.kernel_point_source_supersampled s) s
        (si.getD (zerosMask pg.nx pg.ny)) ks ci)) ∧
    (psf.psf_type = "PIXEL" → cm = "regular" → normalizeSSConv s sc = true →
      eng.conv = some (.subgridKernel (psf.kernel_point_source_supersampled s) s ks "fft")) ∧
    (psf.psf_type = "PIXEL" → normalizeSSConv s sc = false →
      eng.conv = some (.pixelKernel psf.kernel_point_source "fft")) ∧
    (psf.psf_type = "GAUSSIAN" →
      eng.conv = some (.multiGaussian [(psf.fwhm : ℝ) / (2 * Real.sqrt (2 * Real.log 2))] [1]
        pg.pixel_width s (normalizeSSConv s sc) 4)) ∧
    (∀ convApply flux u img eng',
      re_size_convolveS convApply eng flux u = .ok (img, eng') → eng'.conv = eng.conv) := by
  obtain ⟨-, conv, hs, rfl⟩ := mkNumerics_ok_elim _ _ _ _ _ _ _ _ _ _ _ h
  refine ⟨?_, ?_, ?_, ?_, ?_⟩
  · intro hp hcm hss
    unfold selectConv at hs
    rw [if_pos hp, if_pos ⟨hcm, hss⟩] at hs
    exact (Except.ok.inj hs).symm
  · intro hp hcm hss
    subst hcm
    unfold selectConv at hs
    rw [if_pos hp, if_neg (fun hc => absurd hc.1 (by decide)),
      if_pos ⟨rfl, hss⟩] at hs
    exact (Except.ok.inj hs).symm
  · intro hp hss
    unfold selectConv at hs
    rw [if_pos hp, if_neg (fun hc => by rw [hss] at hc; exact Bool.false_ne_true hc.2),
      if_neg (fun hc => by rw [hss] at hc; exact Bool.false_ne_true hc.2)] at hs
    exact (Except.ok.inj hs).symm
  · intro hg
    unfold selectConv at hs
    rw [if_neg (fun hc => by rw [hg] at hc; exact absurd hc (by decide)), if_pos hg] at hs
    exact (Except.ok.inj hs).symm
  · intro convApply flux u img eng' hre
    unfold re_size_convolveS at hre
    split at hre
    · cases hre
    · injection hre with hp2
      injection hp2 with ha hb
      rw [← hb]

/-- C7: on every constructed engine, `re_size_convolve` fails with
`ShapeMismatch` exactly when the flux array length differs from the
length of `coordinates_evaluate`; with the exact length it always
returns an image. -/
theorem re_size_convolve_shape_mismatch_iff
    (convApply : ConvStrategy → Image → Option Image → Image)
    (pg : PixelGrid) (psf : PSF) (s : ℕ) (cm : String) (sc : Bool) (ks : ℕ)
    (fe si ci : Option Mask) (ps : ℕ) (eng : Numerics)
    (h : mkNumerics pg psf s cm sc ks fe si ci ps = .ok eng)
    (flux : List ℚ) (u : Bool) :
    (re_size_convolve convApply eng flux u = .error .shapeMismatch ↔
      flux.length ≠ eng.coordinates_evaluate.length) ∧
    (flux.length = eng.coordinates_evaluate.length →
      ∃ img, re_size_convolve convApply eng flux u = .ok img) := by
  unfold re_size_convolve GridModel.flux_array2image_low_high
  by_cases hl : flux.length = eng.grid.coordinates_evaluate.length
  · rw [if_pos hl]
    constructor
    · constructor
      · intro hcontra
        cases hcontra
      · intro hne
        exact absurd hl hne
    · intro _
      exact ⟨_, rfl⟩
  · rw [if_neg hl]
    constructor
    · exact ⟨fun _ => hl, fun _ => rfl⟩
    · intro hflux
      exact absurd hflux hl

/-- C9: the engine is a pure, deterministic transform: a render call
returns the engine state unchanged (so `coordinates_evaluate` is stable
across calls), and equal inputs give equal outputs. -/
theorem re_size_convolve_pure_deterministic
    (convApply : ConvStrategy → Image → Option Image → Image)
    (eng : Numerics) (flux : List ℚ) (u : Bool) :
    (∀ img eng', re_size_convolveS convApply eng flux u = .ok (img, eng') →
      eng' = eng ∧ eng'.coordinates_evaluate = eng.coordinates_evaluate) ∧
    (∀ flux2 u2, flux2 = flux → u2 = u →
      re_size_convolveS convApply eng flux2 u2 = re_size_convolveS convApply eng flux u) := by
  constructor
  · intro img eng' hre
    unfold re_size_convolveS at hre
    split at hre
    · cases hre
    · injection hre with hp2
      injection hp2 with ha hb
      exact ⟨hb.symm, by rw [hb]⟩
  · intro flux2 u2 h2 h3
    rw [h2, h3]

lemma selectConv_isOk_eq (psf : PSF) (cm cm2 : String) (b b2 : Bool) (s s2 ks ks2 : ℕ)
    (m m2 : Mask) (ci ci2 : Option Mask) (pw pw2 : ℚ) :
    (selectConv psf cm b s ks m ci pw).isOk = (selectConv psf cm2 b2 s2 ks2 m2 ci2 pw2).isOk := by
  unfold selectConv
  by_cases hp : psf.psf_type = "PIXEL"
  · rw [if_pos hp, if_pos hp]
    split_ifs <;> rfl
  · rw [if_neg hp, if_neg hp]
    by_cases hg : psf.psf_type = "GAUSSIAN"
    · rw [if_pos hg, if_pos hg]
      rfl
    · rw [if_neg hg, if_neg hg]

/-- C10: the `compute_mode` argument is never validated: any value
other than the exact string `'adaptive'` silently selects a Regular
grid, and construction succeeds or fails exactly as it would with
`compute_mode = 'regular'` (an invalid `compute_mode` itself never
fails construction). -/
theorem compute_mode_not_validated
    (pg : PixelGrid) (psf : PSF) (s : ℕ) (sc : Bool) (ks : ℕ)
    (fe si ci : Option Mask) (ps : ℕ) (cm : String) (hcm : cm ≠ "adaptive") :
    (∀ eng, mkNumerics pg psf s cm sc ks fe si ci ps = .ok eng →
      eng.grid = .regular ⟨pg.nx, pg.ny, pg.transform_pix2angle, pg.ra_at_xy_0,
        pg.dec_at_xy_0, s, fe⟩) ∧
    (mkNumerics pg psf s cm sc ks fe si ci ps).isOk
      = (mkNumerics pg psf s "regular" sc ks fe si ci ps).isOk := by
  constructor
  · intro eng h
    obtain ⟨-, conv, -, rfl⟩ := mkNumerics_ok_elim _ _ _ _ _ _ _ _ _ _ _ h
    show buildGrid pg cm _ s fe = _
    unfold buildGrid
    rw [if_neg hcm]
  · unfold mkNumerics
    cases hv : validateMasks pg.nx pg.ny fe si ci with
    | error e => rfl
    | ok u =>
      cases u
      dsimp only
      have hsel := selectConv_isOk_eq psf cm "regular" (normalizeSSConv s sc)
        (normalizeSSConv s sc) s s ks ks (si.getD (zerosMask pg.nx pg.ny))
        (si.getD (zerosMask pg.nx pg.ny)) ci ci pg.pixel_width pg.pixel_width
      cases h1 : selectConv psf cm (normalizeSSConv s sc) s ks
          (si.getD (zerosMask pg.nx pg.ny)) ci pg.pixel_width with
      | error e1 =>
        cases h2 : selectConv psf "regular" (normalizeSSConv s sc) s ks
            (si.getD (zerosMask pg.nx pg.ny)) ci pg.pixel_width with
        | error e2 => rfl
        | ok c2 =>
          rw [h1, h2] at hsel
          simp [Except.isOk, Except.toBool] at hsel
      | ok c1 =>
        cases h2 : selectConv psf "regular" (normalizeSSConv s sc) s ks
            (si.getD (zerosMask pg.nx pg.ny)) ci pg.pixel_width with
        | error e2 =>
          rw [h1, h2] at hsel
          simp [Except.isOk, Except.toBool] at hsel
        | ok c2 => rfl

lemma rg10_lowRes_ones :
    rg10.lowRes (List.replicate 100 1) = List.replicate 10 (List.replicate 10 1) := by
  unfold RegularGrid.lowRes rg10
  dsimp only
  apply List.ext_getElem
  · simp
  intro i hi1 hi2
  simp only [List.length_map, List.length_range] at hi1
  simp only [List.getElem_map, List.getElem_range, List.getElem_replicate]
  apply List.ext_getElem
  · simp
  intro j hj1 hj2
  simp only [List.length_map, List.length_range] at hj1
  simp only [List.getElem_map, List.getElem_range, List.getElem_replicate]
  rw [show maskGet none i j = true from rfl, if_pos rfl]
  rw [show List.range 1 = [0] from rfl]
  simp only [List.flatMap_cons, List.flatMap_nil, List.map_cons, List.map_nil,
    List.append_nil, List.sum_cons, List.sum_nil, Nat.mul_one, Nat.add_zero, add_zero]
  rw [List.getD_eq_getElem?_getD, List.getElem?_replicate, if_pos (by omega), Option.getD_some]
  norm_num

/-- C8: on the 10×10 grid with pixel width 0.1, PSF kind `NONE` and
supersampling factor 1, a flux array of 100 ones renders to a 10×10
image in which every pixel equals 0.01. -/
theorem scenario_10x10_none_all_ones
    (convApply : ConvStrategy → Image → Option Image → Image) (eng : Numerics)
    (h : mkNumerics pg10 psfNone 1 "regular" false 5 none none none 1 = .ok eng) :
    re_size_convolve convApply eng (List.replicate 100 1) false
      = .ok (List.replicate 10 (List.replicate 10 (1/100))) := by
  have h0 : mkNumerics pg10 psfNone 1 "regular" false 5 none none none 1 = .ok engNone := rfl
  have heng : eng = engNone := Except.ok.inj (h.symm.trans h0)
  subst heng
  have hflux : (List.replicate 100 (1:ℚ)).length
      = engNone.grid.coordinates_evaluate.length := by decide
  unfold re_size_convolve GridModel.flux_array2image_low_high
  rw [if_pos hflux]
  dsimp only
  rw [if_pos (show false = true ∨ engNone.psf_type = "NONE" from Or.inr rfl)]
  have hlow : engNone.grid.lowRes (List.replicate 100 1)
      = List.replicate 10 (List.replicate 10 1) := rg10_lowRes_ones
  rw [hlow]
  unfold scaleImage
  simp only [List.map_replicate, engNone]
  norm_num

/-! Witness instantiations. -/

theorem re_size_convolve_unconvolved_identity_witness :
    (mkNumerics pg10 psfNone 1 "regular" false 5 none none none 1 = .ok engNone) ∧
    ((List.replicate 100 (1:ℚ)).length = engNone.coordinates_evaluate.length) ∧
    re_size_convolve idConvApply engNone (List.replicate 100 1) true
      = .ok (scaleImage (engNone.pixel_width ^ 2)
          (engNone.grid.lowRes (List.replicate 100 1))) :=
  ⟨rfl, by decide,
    re_size_convolve_unconvolved_identity idConvApply pg10 psfNone 1 "regular" false 5
      none none none 1 engNone rfl (List.replicate 100 1) (by decide)⟩

theorem psf_none_unconvolved_flag_irrelevant_witness :
    (mkNumerics pg10 psfNone 1 "regular" false 5 none none none 1 = .ok engNone) ∧
    (psfNone.psf_type = "NONE") ∧
    re_size_convolve idConvApply engNone (List.replicate 100 1) true
      = re_size_convolve idConvApply engNone (List.replicate 100 1) false :=
  ⟨rfl, rfl,
    psf_none_unconvolved_flag_irrelevant idConvApply pg10 psfNone 1 "regular" false 5
      none none none 1 engNone rfl rfl (List.replicate 100 1)⟩

theorem unrecognized_psf_type_rejected_witness :
    (psfBad.psf_type ≠ "NONE") ∧ (psfBad.psf_type ≠ "GAUSSIAN") ∧ (psfBad.psf_type ≠ "PIXEL") ∧
    ∃ msg, mkNumerics pg10 psfBad 1 "regular" false 5 none none none 1
      = .error (.invalidConfiguration msg) :=
  ⟨by decide, by decide, by decide,
    unrecognized_psf_type_rejected pg10 psfBad 1 "regular" false 5 none none none 1
      (by decide) (by decide) (by decide)⟩

theorem mask_shape_mismatch_rejected_witness :
    (maskOptOk pg10.nx pg10.ny (some [[true]]) = false) ∧
    ∃ msg, mkNumerics pg10 psfNone 1 "regular" false 5 (some [[true]]) none none 1
      = .error (.invalidConfiguration msg) :=
  ⟨by decide,
    mask_shape_mismatch_rejected pg10 psfNone 1 "regular" false 5 (some [[true]]) none none 1
      (Or.inl (by decide))⟩

theorem conv_strategy_fixed_at_construction_witness :
    (mkNumerics pg10 psfGauss 1 "regular" false 5 none none none 1 = .ok engGauss) ∧
    engGauss.conv = some (.multiGaussian [((2:ℚ) : ℝ) / (2 * Real.sqrt (2 * Real.log 2))] [1]
      (1/10) 1 false 4) :=
  ⟨rfl,
    (conv_strategy_fixed_at_construction pg10 psfGauss 1 "regular" false 5
      none none none 1 engGauss rfl).2.2.2.1 rfl⟩

theorem re_size_convolve_shape_mismatch_iff_witness :
    (mkNumerics pg10 psfNone 1 "regular" false 5 none none none 1 = .ok engNone) ∧
    re_size_convolve idConvApply engNone (List.replicate 99 1) true = .error .shapeMismatch :=
  ⟨rfl,
    (re_size_convolve_shape_mismatch_iff idConvApply pg10 psfNone 1 "regular" false 5
      none none none 1 engNone rfl (List.replicate 99 1) true).1.mpr (by decide)⟩

theorem scenario_10x10_none_all_ones_witness :
    (mkNumerics pg10 psfNone 1 "regular" false 5 none none none 1 = .ok engNone) ∧
    re_size_convolve idConvApply engNone (List.replicate 100 1) false
      = .ok (List.replicate 10 (List.replicate 10 (1/100))) :=
  ⟨rfl, scenario_10x10_none_all_ones idConvApply engNone rfl⟩

theorem re_size_convolve_pure_deterministic_witness :
    (re_size_convolveS idConvApply engNone (List.replicate 100 1) false
      = .ok (scaleImage (engNone.pixel_width ^ 2)
          (engNone.grid.lowRes (List.replicate 100 1)), engNone)) ∧
    (engNone = engNone ∧ engNone.coordinates_evaluate = engNone.coordinates_evaluate) :=
  ⟨rfl,
    (re_size_convolve_pure_deterministic idConvApply engNone (List.replicate 100 1) false).1
      _ engNone rfl⟩

theorem compute_mode_not_validated_witness :
    (("xyz" : String) ≠ "adaptive") ∧
    (mkNumerics pg10 psfNone 1 "xyz" false 5 none none none 1).isOk
      = (mkNumerics pg10 psfNone 1 "regular" false 5 none none none 1).isOk :=
  ⟨by decide,
    (compute_mode_not_validated pg10 psfNone 1 false 5 none none none 1 "xyz" (by decide)).2⟩

end Lenstronomy
